import Mathlib

/-!
# Shallow embedding of the weberr error-annotation library

This file embeds `errors.go` of the weberr package (Go) in Lean 4 and proves
the specified properties of its error-wrapping algebra.

Go error values are nullable interface values; we model them as
`Option GoError`, where `GoError` is the closed universe of error node shapes
that occur in this program and its dependency `github.com/pkg/errors`:

* `foreign` — a plain error with only an `Error()` method (e.g. `io.EOF`);
* `fundamental` — `pkg/errors` root error (from `errors.New` / `errors.Errorf`):
  carries a message and a captured stack trace, exposes no `Cause()`;
* `withStack` — `pkg/errors` stack annotator (from `errors.WithStack`):
  carries a captured stack trace and exposes `Cause()`;
* `withMessage` — `pkg/errors` message annotator (from `errors.WithMessage`,
  and the inner node built by `errors.Wrapf`): exposes `Cause()`, no trace;
* `customError` — weberr's own node: embeds an inner error, carries an
  `errorType` and a `userMessage`, exposes `Cause()`, `Type()` and
  `UserMessage()` but (embedding an interface) promotes only `Error()`,
  so it is not a `stackTracer`.

Go interface type assertions (`err.(typed)`, `err.(userMessager)`,
`err.(stackTracer)`, `err.(causer)`) are modelled by the `as*` functions
below, which return `none` exactly when the assertion fails (including on a
nil interface value).

`fmt.Sprintf` formatting with `%+v` of these values follows the `Format`
methods of `github.com/pkg/errors` (modelled here, since the dependency's
source is fixed and well known): a `fundamental` prints its message followed
by its frames, `withStack` prints its cause then its frames, `withMessage`
prints its cause, a newline and its message, and values without a `Format`
method print via `Error()`; a nil error interface prints as `"<nil>"`.
Captured stacks are ordered frame lists; in Go they are produced by
`runtime.Callers` and are never empty, so the slicing `st[1:]` performed by
`GetStackTrace` is modelled by `List.drop 1` (total), and theorems about the
rendered trace assume a non-empty captured list where the distinction
matters.
-/

namespace Weberr

/-- `ErrorType` of `errors.go` (the spec calls `NoType` `Untyped`): a closed
enumeration with stable ordinals 0..4. -/
inductive ErrorType where
  | NoType
  | BadRequest
  | NotFound
  | Unauthorized
  | Conflict
  deriving DecidableEq, Repr

/-- A captured stack frame: `pkg/errors` renders a frame with `%+v` as the
function name, a newline, a tab, and `file:line`. -/
structure Frame where
  function : String
  file : String
  line : Nat
  deriving DecidableEq, Repr

/-- The closed universe of error values occurring in this program (see the
module docstring for the Go type each constructor embeds). -/
inductive GoError where
  | foreign (msg : String)
  | fundamental (msg : String) (stack : List Frame)
  | withStack (cause : GoError) (stack : List Frame)
  | withMessage (cause : GoError) (msg : String)
  | customError (err : GoError) (errorType : ErrorType) (userMessage : String)
  deriving DecidableEq, Repr

namespace GoError

/-- The `Error()` method of each node: `foreign` and `fundamental` report
their message, `withStack` and weberr's `customError` (whose embedded
`error` provides `Error()`) delegate to the inner error, and `withMessage`
(as built by `errors.Wrapf` / `errors.WithMessage`) reports
`"<msg>: <cause.Error()>"`. -/
def Error : GoError → String
  | .foreign m => m
  | .fundamental m _ => m
  | .withStack c _ => Error c
  | .withMessage c m => m ++ ": " ++ Error c
  | .customError e _ _ => Error e

end GoError

/-- Type assertion `err.(causer)` on a non-nil value: `withStack`,
`withMessage` (both from `pkg/errors`) and `customError` implement
`Cause() error`; plain errors and `fundamental` do not. -/
def asCauser : GoError → Option GoError
  | .withStack c _ => some c
  | .withMessage c _ => some c
  | .customError c _ _ => some c
  | _ => none

/-- Type assertion `err.(stackTracer)` on a non-nil value: `fundamental` and
`withStack` carry a captured trace; `customError` embeds an `error`
interface, which promotes only `Error()`, so it is not a `stackTracer`. -/
def asStackTracer : GoError → Option (List Frame)
  | .fundamental _ st => some st
  | .withStack _ st => some st
  | _ => none

/-- Type assertion `err.(typed)`: only weberr's `customError` has
`Type() ErrorType`. -/
def asTyped : GoError → Option ErrorType
  | .customError _ t _ => some t
  | _ => none

/-- Type assertion `err.(userMessager)`: only weberr's `customError` has
`UserMessage() string`. -/
def asUserMessager : GoError → Option String
  | .customError _ _ u => some u
  | _ => none

/-- `GetType` (errors.go lines 67-73): if the error asserts to `typed`,
return its `Type()`; otherwise (including for a nil error) return
`NoType`. -/
def GetType : Option GoError → ErrorType
  | none => ErrorType.NoType
  | some e =>
    match asTyped e with
    | some t => t
    | none => ErrorType.NoType

/-- `GetUserMessage` (errors.go lines 85-91): if the error asserts to
`userMessager`, return its `UserMessage()` (the outermost node's field,
even when empty); otherwise (including for a nil error) return `""`. -/
def GetUserMessage : Option GoError → String
  | none => ""
  | some e =>
    match asUserMessager e with
    | some u => u
    | none => ""

/-- `ErrorType.Errorf` (errors.go lines 94-99): builds
`customError{error: errors.WithStack(errors.Errorf(msg, args...)), errorType}`.
`stNew` is the stack captured by `errors.Errorf` inside its `fundamental`,
`stWS` the stack captured by `errors.WithStack`; the formatted message is
passed already formatted (formatting itself is `fmt` library behavior). -/
def ErrorType.Errorf (k : ErrorType) (msg : String) (stNew stWS : List Frame) :
    Option GoError :=
  some (.customError (.withStack (.fundamental msg stNew) stWS) k "")

/-- `ErrorType.UserErrorf` (errors.go lines 148-155): like `Errorf` but the
`userMessage` field is also set to the formatted message. -/
def ErrorType.UserErrorf (k : ErrorType) (msg : String) (stNew stWS : List Frame) :
    Option GoError :=
  some (.customError (.withStack (.fundamental msg stNew) stWS) k msg)

/-- `ErrorType.Wrapf` (errors.go lines 102-118): `nil` in, `nil` out;
otherwise `c.error = errors.Wrapf(err, msg, args...)` (which is
`withStack(withMessage(err, msg), st)`), `c.userMessage = GetUserMessage(err)`,
and `c.errorType` is the receiver kind unless it is `NoType`, in which case
it is `GetType(err)`. -/
def ErrorType.Wrapf (k : ErrorType) (err : Option GoError) (msg : String)
    (st : List Frame) : Option GoError :=
  match err with
  | none => none
  | some e =>
    some (.customError (.withStack (.withMessage e msg) st)
      (if k ≠ ErrorType.NoType then k else GetType (some e))
      (GetUserMessage (some e)))

/-- `ErrorType.UserWrapf` (errors.go lines 121-145): `nil` in, `nil` out;
otherwise `c.error = errors.WithStack(err)` (diagnostic message unchanged),
the new user message is the formatted message, joined as
`"<new>: <existing>"` when the existing `GetUserMessage(err)` is non-empty,
and the kind resolves exactly as in `Wrapf`. -/
def ErrorType.UserWrapf (k : ErrorType) (err : Option GoError) (msg : String)
    (st : List Frame) : Option GoError :=
  match err with
  | none => none
  | some e =>
    let origMsg := GetUserMessage (some e)
    let userMsg := if origMsg ≠ "" then msg ++ ": " ++ origMsg else msg
    some (.customError (.withStack e st)
      (if k ≠ ErrorType.NoType then k else GetType (some e))
      userMsg)

/-- `ErrorType.Set` (errors.go lines 158-168): `nil` in, `nil` out; otherwise
wraps with `errors.WithStack(err)`, forces `errorType` to the receiver kind
unconditionally (even `NoType`), and copies `GetUserMessage(err)`. -/
def ErrorType.Set (k : ErrorType) (err : Option GoError) (st : List Frame) :
    Option GoError :=
  match err with
  | none => none
  | some e => some (.customError (.withStack e st) k (GetUserMessage (some e)))

/-- Kind-free `Errorf` (errors.go lines 171-173): `NoType.Errorf`. -/
def Errorf (msg : String) (stNew stWS : List Frame) : Option GoError :=
  ErrorType.NoType.Errorf msg stNew stWS

/-- Kind-free `Wrapf` (errors.go lines 176-178): `NoType.Wrapf`. -/
def Wrapf (err : Option GoError) (msg : String) (st : List Frame) :
    Option GoError :=
  ErrorType.NoType.Wrapf err msg st

/-- Kind-free `UserErrorf` (errors.go lines 181-183): `NoType.UserErrorf`. -/
def UserErrorf (msg : String) (stNew stWS : List Frame) : Option GoError :=
  ErrorType.NoType.UserErrorf msg stNew stWS

/-- Kind-free `UserWrapf` (errors.go lines 186-188): `NoType.UserWrapf`. -/
def UserWrapf (err : Option GoError) (msg : String) (st : List Frame) :
    Option GoError :=
  ErrorType.NoType.UserWrapf err msg st

/-- `baseStackTracer` (errors.go lines 198-211), written by structural
recursion with the interface checks resolved per constructor: if the node
asserts to `causer`, first recurse on its `Cause()` and propagate a found
candidate; otherwise return the node itself exactly when it also asserts to
`stackTracer` (among causers only `withStack` does); nodes that are not
causers — `foreign` and `fundamental`, even though the latter carries a
trace — yield `nil`. `baseStackTracer_eq_source` below re-states this
definition literally in the source's control-flow shape. -/
def baseStackTracer : GoError → Option GoError
  | .foreign _ => none
  | .fundamental _ _ => none
  | .withStack c st =>
    match baseStackTracer c with
    | some candidate => some candidate
    | none => some (.withStack c st)
  | .withMessage c _ =>
    match baseStackTracer c with
    | some candidate => some candidate
    | none => none
  | .customError c _ _ =>
    match baseStackTracer c with
    | some candidate => some candidate
    | none => none

/-- Rendering of one frame under `%+v` (pkg/errors `Frame.Format`):
function name, newline, tab, `file:line`. -/
def formatFramePlusV (f : Frame) : String :=
  f.function ++ "\n\t" ++ f.file ++ ":" ++ toString f.line

/-- Rendering of a frame list under `%+v` (pkg/errors `StackTrace.Format`):
each frame preceded by a newline. -/
def formatStackPlusV (st : List Frame) : String :=
  String.join (st.map (fun f => "\n" ++ formatFramePlusV f))

/-- `fmt.Sprintf("%+v", e)` for a non-nil error value, following the
`Format` methods of pkg/errors; values without a `Format` method
(`foreign`, `customError`) print via `Error()`. -/
def formatErrPlusV : GoError → String
  | .fundamental m st => m ++ formatStackPlusV st
  | .withStack c st => formatErrPlusV c ++ formatStackPlusV st
  | .withMessage c m => formatErrPlusV c ++ "\n" ++ m
  | e => GoError.Error e

/-- `fmt.Sprintf("%+v", err)` on a possibly-nil error interface value: a nil
interface prints as `"<nil>"`. -/
def formatErrOptPlusV : Option GoError → String
  | none => "<nil>"
  | some e => formatErrPlusV e

/-- `GetStackTrace` (errors.go lines 215-229): returns `""` for nil; else
reassigns `err = baseStackTracer(err)` and asserts the REASSIGNED value to
`stackTracer`. On success it renders `fmt.Sprintf("%+v\n", st[1:])`
(first frame dropped); on failure it falls back to
`fmt.Sprintf("%+v", err)` — formatting the reassigned `err`, which at that
point is the result of `baseStackTracer`, not the original argument. -/
def GetStackTrace (err : Option GoError) : String :=
  match err with
  | none => ""
  | some e0 =>
    let e := baseStackTracer e0
    match e.bind asStackTracer with
    | none => formatErrOptPlusV e
    | some st => formatStackPlusV (st.drop 1) ++ "\n"

/-- Whether some node of the cause chain asserts to `stackTracer`
(the chain of a non-causer node is that node alone). -/
def hasTracedNode : GoError → Bool
  | .foreign _ => false
  | .fundamental _ _ => true
  | .withStack _ _ => true
  | .withMessage c _ => hasTracedNode c
  | .customError c _ _ => hasTracedNode c

/-- Spec-side definition, following the words of spec section 4.3 only (for
comparison with the code's `GetUserMessage`): the `userMessage` of the
outermost layer in the cause chain that carries a non-empty one, or `""`
when no layer does. Only `customError` nodes carry a `userMessage`. -/
def specOutermostUserMessage : GoError → String
  | .foreign _ => ""
  | .fundamental _ _ => ""
  | .withStack c _ => specOutermostUserMessage c
  | .withMessage c _ => specOutermostUserMessage c
  | .customError c _ u => if u ≠ "" then u else specOutermostUserMessage c

/-- Lift of `specOutermostUserMessage` to a possibly-nil error (a nil error
has no layer, hence no user message). -/
def specOutermostUserMessageOpt : Option GoError → String
  | none => ""
  | some e => specOutermostUserMessage e

/-- One wrapping layer applied on top of an existing error: the three
operations of the library that wrap a pre-existing error. Each layer
records the formatted message (where the operation takes one) and the stack
captured by its internal `errors.WithStack` / `errors.Wrapf` call. -/
inductive Layer where
  | wrapf (k : ErrorType) (msg : String) (st : List Frame)
  | userWrapf (k : ErrorType) (msg : String) (st : List Frame)
  | set (k : ErrorType) (st : List Frame)

/-- Apply one layer. -/
def applyLayer (l : Layer) (err : Option GoError) : Option GoError :=
  match l with
  | .wrapf k msg st => k.Wrapf err msg st
  | .userWrapf k msg st => k.UserWrapf err msg st
  | .set k st => k.Set err st

/-- Apply a finite sequence of layers, innermost first. -/
def applyLayers (ls : List Layer) (err : Option GoError) : Option GoError :=
  ls.foldl (fun acc l => applyLayer l acc) err

/-! ## Helper lemmas -/

/-- The structural definition of `baseStackTracer` coincides, node by node,
with the literal control flow of errors.go lines 198-211: assert `causer`,
recurse on `Cause()`, propagate a found candidate, else return the node
itself exactly when it asserts to `stackTracer`, else `nil`; non-causers
yield `nil` immediately. -/
theorem baseStackTracer_eq_source (e : Weberr.GoError) :
    Weberr.baseStackTracer e =
      match Weberr.asCauser e with
      | some c =>
        match Weberr.baseStackTracer c with
        | some candidate => some candidate
        | none =>
          if (Weberr.asStackTracer e).isSome then some e else none
      | none => none := by
  cases e with
  | foreign m => rfl
  | fundamental m st => rfl
  | withStack c st =>
    simp only [Weberr.baseStackTracer, Weberr.asCauser, Weberr.asStackTracer,
      Option.isSome_some, if_true]
  | withMessage c m =>
    simp only [Weberr.baseStackTracer, Weberr.asCauser, Weberr.asStackTracer,
      Option.isSome_none, Bool.false_eq_true, if_false]
  | customError c t u =>
    simp only [Weberr.baseStackTracer, Weberr.asCauser, Weberr.asStackTracer,
      Option.isSome_none, Bool.false_eq_true, if_false]

/-- Every node returned by `baseStackTracer` asserts both to `causer` and to
`stackTracer` (so it is a `withStack` node). -/
theorem baseStackTracer_mem_shape (e t : Weberr.GoError)
    (h : Weberr.baseStackTracer e = some t) :
    (Weberr.asCauser t).isSome = true ∧ (Weberr.asStackTracer t).isSome = true := by
  induction e with
  | foreign m => simp [Weberr.baseStackTracer] at h
  | fundamental m st => simp [Weberr.baseStackTracer] at h
  | withStack c st ih =>
    rw [Weberr.baseStackTracer] at h
    cases hc : Weberr.baseStackTracer c with
    | some cand => rw [hc] at h; exact ih (hc.trans h)
    | none =>
      rw [hc] at h
      cases h
      exact ⟨rfl, rfl⟩
  | withMessage c m ih =>
    rw [Weberr.baseStackTracer] at h
    cases hc : Weberr.baseStackTracer c with
    | some cand => rw [hc] at h; exact ih (hc.trans h)
    | none => rw [hc] at h; cases h
  | customError c t' u ih =>
    rw [Weberr.baseStackTracer] at h
    cases hc : Weberr.baseStackTracer c with
    | some cand => rw [hc] at h; exact ih (hc.trans h)
    | none => rw [hc] at h; cases h

/-- When no node of the chain carries a trace, the root-finding walk finds
nothing. -/
theorem baseStackTracer_eq_none_of_no_trace (e : Weberr.GoError)
    (h : Weberr.hasTracedNode e = false) :
    Weberr.baseStackTracer e = none := by
  induction e with
  | foreign m => rfl
  | fundamental m st => simp [Weberr.hasTracedNode] at h
  | withStack c st ih => simp [Weberr.hasTracedNode] at h
  | withMessage c m ih =>
    rw [Weberr.hasTracedNode] at h
    rw [Weberr.baseStackTracer, ih h]
  | customError c t u ih =>
    rw [Weberr.hasTracedNode] at h
    rw [Weberr.baseStackTracer, ih h]

/-- Applying one library layer on top of an error never deletes it and never
changes the traced node found by the root-finding walk. -/
theorem baseStackTracer_applyLayer (l : Weberr.Layer) (e t : Weberr.GoError)
    (h : Weberr.baseStackTracer e = some t) :
    ∃ e2, Weberr.applyLayer l (some e) = some e2 ∧
      Weberr.baseStackTracer e2 = some t := by
  cases l with
  | wrapf k msg st =>
    refine ⟨_, rfl, ?_⟩
    simp only [Weberr.baseStackTracer, h]
  | userWrapf k msg st =>
    refine ⟨_, rfl, ?_⟩
    simp only [Weberr.baseStackTracer, h]
  | set k st =>
    refine ⟨_, rfl, ?_⟩
    simp only [Weberr.baseStackTracer, h]

/-- Applying any finite sequence of library layers preserves the traced node
found by the root-finding walk. -/
theorem baseStackTracer_applyLayers (ls : List Weberr.Layer)
    (e t : Weberr.GoError) (h : Weberr.baseStackTracer e = some t) :
    ∃ e2, Weberr.applyLayers ls (some e) = some e2 ∧
      Weberr.baseStackTracer e2 = some t := by
  induction ls generalizing e with
  | nil => exact ⟨e, rfl, h⟩
  | cons l rest ih =>
    obtain ⟨e1, he1, hb1⟩ := Weberr.baseStackTracer_applyLayer l e t h
    obtain ⟨e2, he2, hb2⟩ := ih e1 hb1
    refine ⟨e2, ?_, hb2⟩
    show Weberr.applyLayers rest (Weberr.applyLayer l (some e)) = some e2
    rw [he1]
    exact he2

/-- A string of the form `a ++ ": " ++ b` is never empty. -/
theorem colon_join_ne_empty (a b : String) : a ++ ": " ++ b ≠ "" := by
  intro h
  have h2 := congrArg String.length h
  simp [String.length_append] at h2
  exact absurd h2.1.2 (by decide)

/-- `GetUserMessage` on a `customError` node reads its `userMessage` field. -/
theorem getUserMessage_customError (c : Weberr.GoError) (t : Weberr.ErrorType)
    (u : String) :
    Weberr.GetUserMessage (some (Weberr.GoError.customError c t u)) = u := rfl

/-- Unfolding of the spec-side accessor on a `customError` node. -/
theorem spec_userMessage_customError (c : Weberr.GoError)
    (t : Weberr.ErrorType) (u : String) :
    Weberr.specOutermostUserMessage (Weberr.GoError.customError c t u) =
      if u ≠ "" then u else Weberr.specOutermostUserMessage c := rfl

/-- The spec-side accessor passes through a `withStack` node. -/
theorem spec_userMessage_withStack (c : Weberr.GoError) (st : List Weberr.Frame) :
    Weberr.specOutermostUserMessage (Weberr.GoError.withStack c st) =
      Weberr.specOutermostUserMessage c := rfl

/-- The spec-side accessor passes through a `withMessage` node. -/
theorem spec_userMessage_withMessage (c : Weberr.GoError) (m : String) :
    Weberr.specOutermostUserMessage (Weberr.GoError.withMessage c m) =
      Weberr.specOutermostUserMessage c := rfl

/-- Invariant of library-built chains: the outermost node's `userMessage`
field (what `GetUserMessage` returns) equals the outermost non-empty
`userMessage` of the whole chain (what spec section 4.3 describes). Each of
the three wrapping layers preserves this invariant. -/
theorem userMessage_invariant_applyLayer (l : Weberr.Layer) (b : Weberr.GoError)
    (hb : Weberr.GetUserMessage (some b) = Weberr.specOutermostUserMessage b) :
    ∃ b2, Weberr.applyLayer l (some b) = some b2 ∧
      Weberr.GetUserMessage (some b2) = Weberr.specOutermostUserMessage b2 := by
  cases l with
  | wrapf k msg st =>
    refine ⟨_, rfl, ?_⟩
    rw [Weberr.getUserMessage_customError, Weberr.spec_userMessage_customError,
      Weberr.spec_userMessage_withStack, Weberr.spec_userMessage_withMessage,
      ← hb, ite_self]
  | userWrapf k msg st =>
    refine ⟨_, rfl, ?_⟩
    rw [Weberr.getUserMessage_customError, Weberr.spec_userMessage_customError,
      Weberr.spec_userMessage_withStack, ← hb]
    by_cases hu : Weberr.GetUserMessage (some b) = ""
    · by_cases hm : msg = ""
      · simp [hu, hm]
      · simp [hu, hm]
    · simp [hu, Weberr.colon_join_ne_empty]
  | set k st =>
    refine ⟨_, rfl, ?_⟩
    rw [Weberr.getUserMessage_customError, Weberr.spec_userMessage_customError,
      Weberr.spec_userMessage_withStack, ← hb, ite_self]

/-- The invariant of `userMessage_invariant_applyLayer` is preserved by any
finite sequence of layers. -/
theorem userMessage_invariant_applyLayers (ls : List Weberr.Layer)
    (b : Weberr.GoError)
    (hb : Weberr.GetUserMessage (some b) = Weberr.specOutermostUserMessage b) :
    ∃ b2, Weberr.applyLayers ls (some b) = some b2 ∧
      Weberr.GetUserMessage (some b2) = Weberr.specOutermostUserMessage b2 := by
  induction ls generalizing b with
  | nil => exact ⟨b, rfl, hb⟩
  | cons l rest ih =>
    obtain ⟨b1, hb1, hinv1⟩ := Weberr.userMessage_invariant_applyLayer l b hb
    obtain ⟨b2, hb2, hinv2⟩ := ih b1 hinv1
    refine ⟨b2, ?_, hinv2⟩
    show Weberr.applyLayers rest (Weberr.applyLayer l (some b)) = some b2
    rw [hb1]
    exact hb2

/-! ## Claim theorems -/

/-- C1. The claim states that for a non-nil chain with no stack-carrying
node, `GetStackTrace` returns the foreign error's own full `%+v`
representation. The code does not: after `err = baseStackTracer(err)`
reassigns `err` to the walk's result — which is nil whenever no node of the
chain asserts to `stackTracer` — the fallback formats the REASSIGNED `err`,
so it always returns `fmt.Sprintf("%+v", nil) = "<nil>"`, never the
original error's representation. This theorem evaluates the code on every
traceless chain. -/
theorem getStackTrace_pure_foreign_returns_nil_repr (e : Weberr.GoError)
    (h : Weberr.hasTracedNode e = false) :
    Weberr.GetStackTrace (some e) = "<nil>" := by
  have hb := Weberr.baseStackTracer_eq_none_of_no_trace e h
  rw [Weberr.GetStackTrace]
  rw [hb]
  rfl

/-- Witness for C1 at the pure foreign error `io.EOF`: no node of its
(one-node) chain carries a trace, and `GetStackTrace` returns `"<nil>"`
rather than its own representation `"EOF"`. -/
theorem getStackTrace_pure_foreign_returns_nil_repr_witness :
    Weberr.hasTracedNode (Weberr.GoError.foreign "EOF") = false ∧
      Weberr.GetStackTrace (some (Weberr.GoError.foreign "EOF")) = "<nil>" ∧
      Weberr.formatErrPlusV (Weberr.GoError.foreign "EOF") = "EOF" :=
  ⟨rfl, Weberr.getStackTrace_pure_foreign_returns_nil_repr _ rfl, rfl⟩

/-- C2. A root error built by `Errorf` or `UserErrorf` captures a trace in
its `errors.WithStack` node (`stWS`); after any finite sequence of
`Wrapf` / `UserWrapf` / `Set` layers on top, `GetStackTrace` renders exactly
that root `withStack` node's frames with the first frame dropped
(`st[1:]`), regardless of the layers and of the stacks they captured. The
hypothesis `stWS ≠ []` keeps the statement on inputs where Go's slicing
`st[1:]` is defined (captured stacks are never empty in Go). -/
theorem getStackTrace_returns_root_trace (ls : List Weberr.Layer)
    (k : Weberr.ErrorType) (msg : String) (stNew stWS : List Weberr.Frame)
    (_h : stWS ≠ []) :
    Weberr.GetStackTrace (Weberr.applyLayers ls (k.Errorf msg stNew stWS)) =
        Weberr.formatStackPlusV (stWS.drop 1) ++ "\n" ∧
      Weberr.GetStackTrace (Weberr.applyLayers ls (k.UserErrorf msg stNew stWS)) =
        Weberr.formatStackPlusV (stWS.drop 1) ++ "\n" := by
  constructor
  · obtain ⟨e2, he2, hb2⟩ := Weberr.baseStackTracer_applyLayers ls
      (Weberr.GoError.customError
        (Weberr.GoError.withStack (Weberr.GoError.fundamental msg stNew) stWS) k "")
      (Weberr.GoError.withStack (Weberr.GoError.fundamental msg stNew) stWS) rfl
    show Weberr.GetStackTrace (Weberr.applyLayers ls (some _)) = _
    rw [he2, Weberr.GetStackTrace]
    rw [hb2]
    rfl
  · obtain ⟨e2, he2, hb2⟩ := Weberr.baseStackTracer_applyLayers ls
      (Weberr.GoError.customError
        (Weberr.GoError.withStack (Weberr.GoError.fundamental msg stNew) stWS) k msg)
      (Weberr.GoError.withStack (Weberr.GoError.fundamental msg stNew) stWS) rfl
    show Weberr.GetStackTrace (Weberr.applyLayers ls (some _)) = _
    rw [he2, Weberr.GetStackTrace]
    rw [hb2]
    rfl

/-- Witness for C2: one concrete root with a two-frame captured stack under
one `Wrapf` and one `Set` layer renders the root's second frame only. -/
theorem getStackTrace_returns_root_trace_witness :
    (Weberr.Frame.mk "main.run" "main.go" 10 :: [Weberr.Frame.mk "main.main" "main.go" 20]) ≠ [] ∧
      Weberr.GetStackTrace
          (Weberr.applyLayers
            [Weberr.Layer.wrapf Weberr.ErrorType.BadRequest "w" [],
             Weberr.Layer.set Weberr.ErrorType.NotFound []]
            (Weberr.ErrorType.NoType.Errorf "boom" []
              [Weberr.Frame.mk "main.run" "main.go" 10,
               Weberr.Frame.mk "main.main" "main.go" 20])) =
        Weberr.formatStackPlusV
          ([Weberr.Frame.mk "main.run" "main.go" 10,
            Weberr.Frame.mk "main.main" "main.go" 20].drop 1) ++ "\n" ∧
      Weberr.GetStackTrace
          (Weberr.applyLayers
            [Weberr.Layer.wrapf Weberr.ErrorType.BadRequest "w" [],
             Weberr.Layer.set Weberr.ErrorType.NotFound []]
            (Weberr.ErrorType.NoType.UserErrorf "boom" []
              [Weberr.Frame.mk "main.run" "main.go" 10,
               Weberr.Frame.mk "main.main" "main.go" 20])) =
        Weberr.formatStackPlusV
          ([Weberr.Frame.mk "main.run" "main.go" 10,
            Weberr.Frame.mk "main.main" "main.go" 20].drop 1) ++ "\n" := by
  refine ⟨by simp, ?_, ?_⟩
  · exact (Weberr.getStackTrace_returns_root_trace _ _ _ _ _ (by simp)).1
  · exact (Weberr.getStackTrace_returns_root_trace _ _ _ _ _ (by simp)).2

/-- C3. `Set` forces the kind of the result to its receiver kind
unconditionally: for every non-nil error the result's `GetType` is `k`,
in particular `GetType(Set(NotFound, Set(BadRequest, anyErr))) = NotFound`,
and `Set` with `NoType` (the spec's `Untyped`) yields `NoType` even when
the wrapped error carried another kind. -/
theorem set_forces_kind (k t : Weberr.ErrorType) (e : Weberr.GoError)
    (st st1 st2 : List Weberr.Frame) (u : String) :
    Weberr.GetType (k.Set (some e) st) = k ∧
      Weberr.GetType
          (Weberr.ErrorType.NotFound.Set
            (Weberr.ErrorType.BadRequest.Set (some e) st1) st2) =
        Weberr.ErrorType.NotFound ∧
      Weberr.GetType
          (Weberr.ErrorType.NoType.Set
            (some (Weberr.GoError.customError e t u)) st) =
        Weberr.ErrorType.NoType :=
  ⟨rfl, rfl, rfl⟩

/-- C4. Kind resolution of `Wrapf` and `UserWrapf`: an explicitly supplied
non-`NoType` kind wins at that layer, while `NoType` (the spec's `Untyped`)
inherits `GetType` of the wrapped error. -/
theorem wrapf_kind_resolution (k : Weberr.ErrorType) (e : Weberr.GoError)
    (msg : String) (st : List Weberr.Frame)
    (hk : k ≠ Weberr.ErrorType.NoType) :
    Weberr.GetType (k.Wrapf (some e) msg st) = k ∧
      Weberr.GetType (k.UserWrapf (some e) msg st) = k ∧
      Weberr.GetType (Weberr.ErrorType.NoType.Wrapf (some e) msg st) =
        Weberr.GetType (some e) ∧
      Weberr.GetType (Weberr.ErrorType.NoType.UserWrapf (some e) msg st) =
        Weberr.GetType (some e) := by
  refine ⟨?_, ?_, ?_, ?_⟩
  · simp [Weberr.ErrorType.Wrapf, Weberr.GetType, Weberr.asTyped, hk]
  · simp [Weberr.ErrorType.UserWrapf, Weberr.GetType, Weberr.asTyped, hk]
  · simp [Weberr.ErrorType.Wrapf, Weberr.GetType, Weberr.asTyped]
  · simp [Weberr.ErrorType.UserWrapf, Weberr.GetType, Weberr.asTyped]

/-- Witness for C4 at `k = BadRequest` over the foreign error `io.EOF`. -/
theorem wrapf_kind_resolution_witness :
    Weberr.ErrorType.BadRequest ≠ Weberr.ErrorType.NoType ∧
      (Weberr.GetType
            (Weberr.ErrorType.BadRequest.Wrapf
              (some (Weberr.GoError.foreign "EOF")) "m" []) =
          Weberr.ErrorType.BadRequest ∧
        Weberr.GetType
            (Weberr.ErrorType.BadRequest.UserWrapf
              (some (Weberr.GoError.foreign "EOF")) "m" []) =
          Weberr.ErrorType.BadRequest ∧
        Weberr.GetType
            (Weberr.ErrorType.NoType.Wrapf
              (some (Weberr.GoError.foreign "EOF")) "m" []) =
          Weberr.GetType (some (Weberr.GoError.foreign "EOF")) ∧
        Weberr.GetType
            (Weberr.ErrorType.NoType.UserWrapf
              (some (Weberr.GoError.foreign "EOF")) "m" []) =
          Weberr.GetType (some (Weberr.GoError.foreign "EOF"))) :=
  ⟨by decide,
    Weberr.wrapf_kind_resolution Weberr.ErrorType.BadRequest
      (Weberr.GoError.foreign "EOF") "m" [] (by decide)⟩

/-- C5. `UserWrapf` sets the result's user message to the new formatted
message when the wrapped error's user message is empty, and to
`"<new>: <existing>"` when it is non-empty; triple nesting over a foreign
base with no user message accumulates `"3: 2: 1"`. -/
theorem userWrapf_user_message_accumulation (k : Weberr.ErrorType)
    (e : Weberr.GoError) (msg : String) (st st1 st2 st3 : List Weberr.Frame) :
    (Weberr.GetUserMessage (some e) = "" →
      Weberr.GetUserMessage (k.UserWrapf (some e) msg st) = msg) ∧
      (Weberr.GetUserMessage (some e) ≠ "" →
        Weberr.GetUserMessage (k.UserWrapf (some e) msg st) =
          msg ++ ": " ++ Weberr.GetUserMessage (some e)) ∧
      Weberr.GetUserMessage
          (Weberr.UserWrapf
            (Weberr.UserWrapf
              (Weberr.UserWrapf (some (Weberr.GoError.foreign "EOF")) "1" st1)
              "2" st2)
            "3" st3) =
        "3: 2: 1" := by
  refine ⟨?_, ?_, ?_⟩
  · intro h
    show Weberr.GetUserMessage (some _) = msg
    rw [Weberr.getUserMessage_customError]
    simp [h]
  · intro h
    show Weberr.GetUserMessage (some _) = msg ++ ": " ++ Weberr.GetUserMessage (some e)
    rw [Weberr.getUserMessage_customError]
    simp [h]
  · rfl

/-- Witness for C5: the empty-message case at the foreign base `io.EOF` and
the join case one layer up. -/
theorem userWrapf_user_message_accumulation_witness :
    Weberr.GetUserMessage
        (Weberr.ErrorType.NoType.UserWrapf
          (some (Weberr.GoError.foreign "EOF")) "1" []) = "1" ∧
      Weberr.GetUserMessage
          (Weberr.ErrorType.NoType.UserWrapf
            (some (Weberr.GoError.customError
              (Weberr.GoError.withStack (Weberr.GoError.foreign "EOF") [])
              Weberr.ErrorType.NoType "1")) "2" []) =
        "2: 1" :=
  ⟨(Weberr.userWrapf_user_message_accumulation Weberr.ErrorType.NoType
      (Weberr.GoError.foreign "EOF") "1" [] [] [] []).1 rfl,
    (Weberr.userWrapf_user_message_accumulation Weberr.ErrorType.NoType
      (Weberr.GoError.customError
        (Weberr.GoError.withStack (Weberr.GoError.foreign "EOF") [])
        Weberr.ErrorType.NoType "1") "2" [] [] [] []).2.1 (by decide)⟩

/-- C6. The diagnostic message of `Wrapf(k, err, msg)` is the colon-space
join of the new message and `err.Error()` (built by `errors.Wrapf` through
its `withMessage` node), so nesting composes to `"outer: inner: EOF"` over
a base whose message is `"EOF"`. -/
theorem wrapf_diagnostic_message (k : Weberr.ErrorType) (e : Weberr.GoError)
    (msg : String) (st st1 st2 : List Weberr.Frame) :
    (k.Wrapf (some e) msg st).map Weberr.GoError.Error =
        some (msg ++ ": " ++ e.Error) ∧
      (Weberr.Wrapf
          (Weberr.Wrapf (some (Weberr.GoError.foreign "EOF")) "inner" st1)
          "outer" st2).map Weberr.GoError.Error =
        some "outer: inner: EOF" :=
  ⟨rfl, rfl⟩

/-- C7. `UserWrapf` leaves the diagnostic message unchanged: its node embeds
`errors.WithStack(err)`, whose `Error()` delegates to `err.Error()`. -/
theorem userWrapf_preserves_diagnostic_message (k : Weberr.ErrorType)
    (e : Weberr.GoError) (msg : String) (st : List Weberr.Frame) :
    (k.UserWrapf (some e) msg st).map Weberr.GoError.Error = some e.Error :=
  rfl

/-- C8 counterexample. The claim says `GetUserMessage` returns the
userMessage of the outermost layer in the CHAIN carrying a non-empty one,
for every chain "including chains whose outermost node is a foreign wrapper
not produced by this library". The code only type-asserts the outermost
node. Concretely: build `UserWrapf(_, io.EOF, "hello")` (a `customError`
with userMessage `"hello"`), then wrap it with pkg/errors'
`errors.WithMessage(err, "wrap")` — a foreign causer with no
`UserMessage()` method. The chain's outermost non-empty userMessage is
`"hello"` (as `specOutermostUserMessage` computes), but `GetUserMessage`
returns `""`. -/
theorem getUserMessage_foreign_wrapper_counterexample :
    Weberr.UserWrapf (some (Weberr.GoError.foreign "EOF")) "hello" [] =
        some (Weberr.GoError.customError
          (Weberr.GoError.withStack (Weberr.GoError.foreign "EOF") [])
          Weberr.ErrorType.NoType "hello") ∧
      Weberr.GetUserMessage
          (some (Weberr.GoError.withMessage
            (Weberr.GoError.customError
              (Weberr.GoError.withStack (Weberr.GoError.foreign "EOF") [])
              Weberr.ErrorType.NoType "hello")
            "wrap")) = "" ∧
      Weberr.specOutermostUserMessage
          (Weberr.GoError.withMessage
            (Weberr.GoError.customError
              (Weberr.GoError.withStack (Weberr.GoError.foreign "EOF") [])
              Weberr.ErrorType.NoType "hello")
            "wrap") = "hello" :=
  ⟨by decide, rfl, by decide⟩

/-- C8 amended. `GetUserMessage` inspects only the outermost node; it agrees
with the spec's chain-walking description exactly on chains whose outermost
node keeps the library invariant "the outermost node's userMessage equals
the outermost non-empty userMessage of the chain". Every error produced by
this library's own operations keeps that invariant, and every further
`Wrapf` / `UserWrapf` / `Set` layer preserves it; a foreign wrapper on top
breaks it (see the counterexample). -/
theorem getUserMessage_refines_spec_on_library_chains
    (ls : List Weberr.Layer) (b : Weberr.GoError)
    (hb : Weberr.GetUserMessage (some b) = Weberr.specOutermostUserMessage b) :
    Weberr.GetUserMessage (Weberr.applyLayers ls (some b)) =
      Weberr.specOutermostUserMessageOpt (Weberr.applyLayers ls (some b)) := by
  obtain ⟨b2, hb2, hinv⟩ := Weberr.userMessage_invariant_applyLayers ls b hb
  rw [hb2]
  exact hinv

/-- Witness for C8 (amended) on the foreign base `io.EOF` under a
`UserWrapf` and a `Wrapf` layer. -/
theorem getUserMessage_refines_spec_on_library_chains_witness :
    Weberr.GetUserMessage (some (Weberr.GoError.foreign "EOF")) =
        Weberr.specOutermostUserMessage (Weberr.GoError.foreign "EOF") ∧
      Weberr.GetUserMessage
          (Weberr.applyLayers
            [Weberr.Layer.userWrapf Weberr.ErrorType.NoType "u" [],
             Weberr.Layer.wrapf Weberr.ErrorType.BadRequest "w" []]
            (some (Weberr.GoError.foreign "EOF"))) =
        Weberr.specOutermostUserMessageOpt
          (Weberr.applyLayers
            [Weberr.Layer.userWrapf Weberr.ErrorType.NoType "u" [],
             Weberr.Layer.wrapf Weberr.ErrorType.BadRequest "w" []]
            (some (Weberr.GoError.foreign "EOF"))) :=
  ⟨rfl, Weberr.getUserMessage_refines_spec_on_library_chains _ _ rfl⟩

/-- C9. The public API is total on the absent error: the three accessors
return their defaults on nil, and each wrapping operation (kind-bound and
kind-free) maps nil to nil. -/
theorem nil_totality (k : Weberr.ErrorType) (msg : String)
    (st : List Weberr.Frame) :
    Weberr.GetType none = Weberr.ErrorType.NoType ∧
      Weberr.GetUserMessage none = "" ∧
      Weberr.GetStackTrace none = "" ∧
      k.Wrapf none msg st = none ∧
      k.UserWrapf none msg st = none ∧
      k.Set none st = none ∧
      Weberr.Wrapf none msg st = none ∧
      Weberr.UserWrapf none msg st = none :=
  ⟨rfl, rfl, rfl, rfl, rfl, rfl, rfl, rfl⟩

/-- C10. `baseStackTracer` only returns nodes that assert to `causer`
(checked first) AND to `stackTracer` (see `baseStackTracer_mem_shape`); a
node that carries a trace but exposes no `Cause()` — such as a pkg/errors
`fundamental` passed directly — is never selected, so for such an error the
walk returns nil and `GetStackTrace` takes the no-trace fallback path
(returning `"<nil>"`) instead of rendering the error's own frames. -/
theorem baseStackTracer_skips_traced_non_causer (e : Weberr.GoError)
    (h1 : (Weberr.asStackTracer e).isSome = true)
    (h2 : Weberr.asCauser e = none) :
    Weberr.baseStackTracer e = none ∧
      Weberr.GetStackTrace (some e) = "<nil>" := by
  cases e with
  | foreign m => simp [Weberr.asStackTracer] at h1
  | fundamental m st => exact ⟨rfl, rfl⟩
  | withStack c st => simp [Weberr.asCauser] at h2
  | withMessage c m => simp [Weberr.asStackTracer] at h1
  | customError c t u => simp [Weberr.asStackTracer] at h1

/-- Witness for C10 at a `fundamental` node (as produced by pkg/errors
`errors.New` without any wrapping) carrying one captured frame. -/
theorem baseStackTracer_skips_traced_non_causer_witness :
    (Weberr.asStackTracer
        (Weberr.GoError.fundamental "boom"
          [Weberr.Frame.mk "main.main" "main.go" 7])).isSome = true ∧
      Weberr.asCauser
          (Weberr.GoError.fundamental "boom"
            [Weberr.Frame.mk "main.main" "main.go" 7]) = none ∧
      (Weberr.baseStackTracer
            (Weberr.GoError.fundamental "boom"
              [Weberr.Frame.mk "main.main" "main.go" 7]) = none ∧
        Weberr.GetStackTrace
            (some (Weberr.GoError.fundamental "boom"
              [Weberr.Frame.mk "main.main" "main.go" 7])) = "<nil>") :=
  ⟨rfl, rfl, Weberr.baseStackTracer_skips_traced_non_causer _ rfl rfl⟩

end Weberr
